import Mathlib

/-!
Verification of the MixOS early-boot kernel (kernel/kernel.c): a shallow
embedding of the VGA text-mode terminal driver, the Multiboot2 information
block walker `parse_multiboot_info`, and the boot orchestrator `kernel_main`,
together with theorems settling the specification claims about them.

Machine integers are modelled as `Nat` with explicit masking where the C
performs fixed-width arithmetic. Memory regions (the VGA cell buffer, the
multiboot info block) are modelled as `Nat → Nat` functions resp. `List Nat`
byte lists. All definitions are executable.
-/

/-! ### VGA constants and entry encoding (kernel.c lines 15-47) -/

def VGA_WIDTH : Nat := 80

def VGA_HEIGHT : Nat := 25

/-- `vga_entry_color`: `fg | bg << 4`, returned as a `uint8_t`. -/
def vga_entry_color (fg bg : Nat) : Nat := (fg ||| (bg <<< 4)) % 256

/-- `vga_entry`: `(uint16_t)c | (uint16_t)color << 8`; `c` passes through
`unsigned char`, hence the `% 256`. -/
def vga_entry (c color : Nat) : Nat := (c % 256) ||| ((color % 256) <<< 8)

/-! ### Terminal state (kernel.c lines 49-53)

`terminal_buffer` is the cell array at `VGA_MEMORY`, modelled as a function
from the linear cell index `y * VGA_WIDTH + x` to the 16-bit cell value. -/

structure TermState where
  row : Nat
  col : Nat
  color : Nat
  buf : Nat → Nat

/-- The clearing loop of the terminal initialization (kernel.c lines 63-68):
for `y` in `0..VGA_HEIGHT-1`, `x` in `0..VGA_WIDTH-1` the cell at index
`y * VGA_WIDTH + x` is set to `vga_entry(' ', color)`; in row-major order the
written indices are exactly `0, 1, ..., n-1`. -/
def init_clear (color : Nat) (f : Nat → Nat) : Nat → (Nat → Nat)
  | 0 => f
  | n + 1 => Function.update (init_clear color f n) n (vga_entry 32 color)

/-- `terminal_initialize` (kernel.c lines 56-69): cursor to the origin, color
to light-grey-on-black, every one of the `VGA_HEIGHT * VGA_WIDTH` cells
cleared to a space in that color. -/
def terminal_initialize (s : TermState) : TermState :=
  { row := 0
    col := 0
    color := vga_entry_color 7 0
    buf := init_clear (vga_entry_color 7 0) s.buf (VGA_HEIGHT * VGA_WIDTH) }

/-- `terminal_setcolor` (kernel.c lines 72-74). -/
def terminal_setcolor (color : Nat) (s : TermState) : TermState :=
  { s with color := color }

/-- `terminal_putentryat` (kernel.c lines 77-80). -/
def terminal_putentryat (c color x y : Nat) (s : TermState) : TermState :=
  { s with buf := Function.update s.buf (y * VGA_WIDTH + x) (vga_entry c color) }

/-- The copy loop of `terminal_scroll` (kernel.c lines 85-91): for `y` in
`0..VGA_HEIGHT-2`, `x` in `0..VGA_WIDTH-1`, cell `y*VGA_WIDTH+x` receives the
current value of cell `(y+1)*VGA_WIDTH+x`; in row-major order the destination
indices are exactly `0, 1, ..., n-1` with source index `dst + VGA_WIDTH`. -/
def scroll_copy (f : Nat → Nat) : Nat → (Nat → Nat)
  | 0 => f
  | n + 1 => Function.update (scroll_copy f n) n (scroll_copy f n (n + VGA_WIDTH))

/-- The clearing loop of `terminal_scroll` (kernel.c lines 94-97): cell
`(VGA_HEIGHT-1)*VGA_WIDTH + x` is set to `vga_entry(' ', color)` for `x` in
`0..VGA_WIDTH-1`. -/
def scroll_clear (color : Nat) (f : Nat → Nat) : Nat → (Nat → Nat)
  | 0 => f
  | n + 1 =>
    Function.update (scroll_clear color f n) ((VGA_HEIGHT - 1) * VGA_WIDTH + n)
      (vga_entry 32 color)

/-- `terminal_scroll` (kernel.c lines 83-98): copy loop, then clear the last
row. Only the cell buffer changes. -/
def terminal_scroll (s : TermState) : TermState :=
  { s with
    buf := scroll_clear s.color (scroll_copy s.buf ((VGA_HEIGHT - 1) * VGA_WIDTH)) VGA_WIDTH }

/-- The row-advance idiom repeated at kernel.c lines 105-108, 116-119 and
129-132: `if (++terminal_row == VGA_HEIGHT) { terminal_row = VGA_HEIGHT - 1;
terminal_scroll(); }`. -/
def row_advance (s : TermState) : TermState :=
  let s1 := { s with row := s.row + 1 }
  if s1.row = VGA_HEIGHT then terminal_scroll { s1 with row := VGA_HEIGHT - 1 } else s1

/-- `~(size_t)3`, the 64-bit mask used by `terminal_column = (terminal_column
+ 4) & ~3` (kernel.c line 113). -/
def NOT3 : Nat := 2 ^ 64 - 4

/-- `terminal_putchar` (kernel.c lines 101-134). `'\n' = 10`, `'\t' = 9`;
every other byte is an ordinary character. -/
def terminal_putchar (c : Nat) (s : TermState) : TermState :=
  if c = 10 then
    row_advance { s with col := 0 }
  else if c = 9 then
    let s1 := { s with col := (s.col + 4) &&& NOT3 }
    if VGA_WIDTH ≤ s1.col then row_advance { s1 with col := 0 } else s1
  else
    let s1 := terminal_putentryat c s.color s.col s.row s
    let s2 := { s1 with col := s1.col + 1 }
    if s2.col = VGA_WIDTH then row_advance { s2 with col := 0 } else s2

/-- `terminal_write` (kernel.c lines 137-141): one `terminal_putchar` per byte
in order. -/
def terminal_write (data : List Nat) (s : TermState) : TermState :=
  data.foldl (fun st c => terminal_putchar c st) s

/-- Number of bytes before the first null in a byte list: the length scan of
`terminal_writestring` (kernel.c lines 145-148). -/
def cstring_len : List Nat → Nat
  | [] => 0
  | b :: rest => if b = 0 then 0 else cstring_len rest + 1

/-- `terminal_writestring` (kernel.c lines 144-150): writes the bytes before
the first null terminator. -/
def terminal_writestring (data : List Nat) (s : TermState) : TermState :=
  terminal_write (data.take (cstring_len data)) s

/-- ASCII byte list of a string literal (all message strings are ASCII). -/
def bytes (str : String) : List Nat := (str.toList).map Char.toNat

/-! ### Multiboot2 info-block walker (kernel.c lines 197-263)

The info block is modelled as the `List Nat` of bytes starting at
`multiboot_addr`; tag fields are read little-endian from it. The C walker
prints through the terminal as it goes; we factor it, observably
equivalently, into the pure walk over the block (`parse_loop`, producing the
per-tag print groups as records plus a termination outcome) and the terminal
effect of the `terminal_writestring` calls it makes (`parse_multiboot_info`).
An access beyond the byte list models the C code dereferencing memory past
the supplied block. -/

/-- Little-endian 32-bit read at byte offset `o` (the `type`/`size` fields of
`struct multiboot_tag`). Callers check bounds first, so the `getD` default is
never taken on in-range reads. -/
def read_u32 (mem : List Nat) (o : Nat) : Nat :=
  mem.getD o 0 + mem.getD (o + 1) 0 * 256 + mem.getD (o + 2) 0 * 65536 +
    mem.getD (o + 3) 0 * 16777216

/-- The null-terminator scan of `terminal_writestring` applied to a tag's
`string` member: bytes from the head of the list up to the first null, `none`
when no null exists before the modelled memory ends (the real code would read
on, unbounded). -/
def cstring_from : List Nat → Option (List Nat)
  | [] => none
  | b :: rest =>
    if b = 0 then some [] else Option.map (fun t => b :: t) (cstring_from rest)

/-- Scan for a C string starting at byte offset `o` of the block. -/
def cstring_scan (mem : List Nat) (o : Nat) : Option (List Nat) :=
  cstring_from (mem.drop o)

/-- `(tag->size + 7) & ~7` (kernel.c line 237), computed on `uint32_t`. -/
def mb_align8 (sz : Nat) : Nat := ((sz + 7) % 2 ^ 32) &&& (2 ^ 32 - 8)

/-- One print group emitted by the tag loop: the three `terminal_writestring`
calls of case 1 or case 2, or the single line of case 4 (which reads neither
`mem_lower` nor `mem_upper`; kernel.c lines 254-260). -/
inductive MBRecord where
  | cmdline : List Nat → MBRecord
  | bootloader : List Nat → MBRecord
  | memDetected : MBRecord

/-- How a walk of the info block ends. `done`: the `type == 0` tag was
reached. `oob`: the next read lies beyond the modelled memory — the real code
dereferences past the supplied block there. `stuck`: the fuel ran out, which
on the canonical fuel only happens when the cursor stops advancing
(`mb_align8 sz = 0`) and the C loop spins forever. -/
inductive MBOutcome where
  | done : MBOutcome
  | oob : MBOutcome
  | stuck : MBOutcome

/-- The tag loop of `parse_multiboot_info` (kernel.c lines 235-262): read
`(type, size)` at the cursor, stop on `type == 0`, emit the print group for
types 1/2/4, skip any other type, advance by `(size + 7) & ~7`. -/
def parse_loop (mem : List Nat) : Nat → Nat → List MBRecord × MBOutcome
  | 0, _ => ([], MBOutcome.stuck)
  | fuel + 1, off =>
    if off + 8 ≤ mem.length then
      let ty := read_u32 mem off
      let sz := read_u32 mem (off + 4)
      if ty = 0 then ([], MBOutcome.done)
      else
        let next := off + mb_align8 sz
        if ty = 1 then
          match cstring_scan mem (off + 8) with
          | none => ([], MBOutcome.oob)
          | some str =>
            let r := parse_loop mem fuel next
            (MBRecord.cmdline str :: r.1, r.2)
        else if ty = 2 then
          match cstring_scan mem (off + 8) with
          | none => ([], MBOutcome.oob)
          | some str =>
            let r := parse_loop mem fuel next
            (MBRecord.bootloader str :: r.1, r.2)
        else if ty = 4 then
          let r := parse_loop mem fuel next
          (MBRecord.memDetected :: r.1, r.2)
        else
          parse_loop mem fuel next
    else ([], MBOutcome.oob)

/-- The walk of the whole block: the loop starts at offset 8 (skipping
`total_size` and `reserved`, kernel.c line 235). Each terminating iteration
advances the cursor by at least 8 bytes, so `mem.length + 1` units of fuel
can only be exhausted when the cursor stops advancing. -/
def parse_records (mem : List Nat) : List MBRecord × MBOutcome :=
  parse_loop mem (mem.length + 1) 8

/-- The `terminal_writestring` payloads of one print group (kernel.c lines
240-260). The scanned tag string contains no null byte, so writing it prints
it whole. -/
def mb_record_writes : MBRecord → List (List Nat)
  | MBRecord.cmdline str => [bytes ("  Command line: "), str, bytes ("\n")]
  | MBRecord.bootloader str => [bytes ("  Bootloader: "), str, bytes ("\n")]
  | MBRecord.memDetected => [bytes ("  Memory detected\n")]

/-- Every `terminal_writestring` payload of `parse_multiboot_info` in call
order: the two header prints (kernel.c lines 230-232), then the per-tag print
groups. -/
def parse_multiboot_writes (mem : List Nat) : List (List Nat) :=
  bytes ("Multiboot information at: 0x") :: bytes ("\n") ::
    (((parse_records mem).1.map mb_record_writes).flatten)

/-- `parse_multiboot_info` (kernel.c lines 227-263) as its effect on the
terminal: the sequence of `terminal_writestring` calls it performs. -/
def parse_multiboot_info (mem : List Nat) (s : TermState) : TermState :=
  (parse_multiboot_writes mem).foldl (fun st w => terminal_writestring w st) s

/-! ### Boot orchestrator `kernel_main` (kernel.c lines 269-329) -/

def msg_banner1 : List Nat := bytes ("=================================\n")

def msg_banner2 : List Nat := bytes ("    MixOS Kernel v0.1.0\n")

def msg_banner3 : List Nat := bytes ("=================================\n\n")

def msg_magic_err : List Nat := bytes ("[ERROR] Invalid Multiboot magic number!\n")

def msg_halted : List Nat := bytes ("System halted.\n")

def msg_ok : List Nat := bytes ("[OK] Multiboot2 boot detected\n")

def msg_parsing : List Nat := bytes ("\n[INFO] Parsing multiboot information...\n")

def msg_arch : List Nat := bytes ("\n[INFO] Initializing architecture (x86_64)...\n")

def msg_mm : List Nat := bytes ("[INFO] Initializing memory management...\n")

def msg_sched : List Nat := bytes ("[INFO] Initializing scheduler...\n")

def msg_drivers : List Nat := bytes ("[INFO] Initializing drivers...\n")

def msg_fs : List Nat := bytes ("[INFO] Initializing filesystem...\n")

def msg_nl : List Nat := bytes ("\n")

def msg_ready : List Nat := bytes ("[READY] Kernel initialization complete!\n")

def msg_running : List Nat := bytes ("\nMixOS is now running in kernel mode.\n")

def msg_next : List Nat := bytes ("Next step: implement userspace and system calls.\n")

/-- Result of a `kernel_main` run, observed at the `halt:` label (both
branches reach it; the final `while (1) hlt` never returns): final terminal
state, every `terminal_writestring` payload in call order, and whether
`parse_multiboot_info` was invoked. -/
structure KMOut where
  state : TermState
  writes : List (List Nat)
  parserInvoked : Bool

/-- `kernel_main` (kernel.c lines 269-329). `magic` and `multiboot_addr` are
the two `uint64_t` arguments; the info block reachable from `multiboot_addr`
is the byte list `mem`. -/
def kernel_main (magic : Nat) (mem : List Nat) (s0 : TermState) : KMOut :=
  let s := terminal_initialize s0
  let s := terminal_setcolor (vga_entry_color 11 0) s
  let s := terminal_writestring msg_banner1 s
  let s := terminal_writestring msg_banner2 s
  let s := terminal_writestring msg_banner3 s
  let s := terminal_setcolor (vga_entry_color 7 0) s
  if magic ≠ 0x36d76289 then
    let s := terminal_setcolor (vga_entry_color 12 0) s
    let s := terminal_writestring msg_magic_err s
    let s := terminal_writestring msg_halted s
    { state := s
      writes := [msg_banner1, msg_banner2, msg_banner3, msg_magic_err, msg_halted]
      parserInvoked := false }
  else
    let s := terminal_setcolor (vga_entry_color 10 0) s
    let s := terminal_writestring msg_ok s
    let s := terminal_setcolor (vga_entry_color 7 0) s
    let s := terminal_writestring msg_parsing s
    let s := parse_multiboot_info mem s
    let s := terminal_writestring msg_arch s
    let s := terminal_writestring msg_mm s
    let s := terminal_writestring msg_sched s
    let s := terminal_writestring msg_drivers s
    let s := terminal_writestring msg_fs s
    let s := terminal_writestring msg_nl s
    let s := terminal_setcolor (vga_entry_color 14 0) s
    let s := terminal_writestring msg_ready s
    let s := terminal_setcolor (vga_entry_color 7 0) s
    let s := terminal_writestring msg_running s
    let s := terminal_writestring msg_next s
    { state := s
      writes :=
        [msg_banner1, msg_banner2, msg_banner3, msg_ok, msg_parsing] ++
          parse_multiboot_writes mem ++
            [msg_arch, msg_mm, msg_sched, msg_drivers, msg_fs, msg_nl, msg_ready,
              msg_running, msg_next]
      parserInvoked := true }

/-! ### Concrete witnesses: states and info blocks -/

/-- A terminal state at the origin over an all-zero buffer. -/
def st0 : TermState := { row := 0, col := 0, color := 7, buf := fun _ => 0 }

/-- Little-endian bytes of a 32-bit value. -/
def u32le (n : Nat) : List Nat :=
  [n % 256, n / 256 % 256, n / 65536 % 256, n / 16777216 % 256]

/-- Well-formed demo block of §8 of the spec: command line
`"root=/dev/sda1"` (tag size 23, padded to 24), bootloader `"GRUB 2.06"`
(tag size 18, padded to 24), basic meminfo `(639, 130048)`, end tag.
80 bytes, `total_size = 80`. -/
def block_demo : List Nat :=
  u32le 80 ++ u32le 0 ++
    (u32le 1 ++ u32le 23 ++ bytes ("root=/dev/sda1") ++ [0] ++ [0]) ++
      (u32le 2 ++ u32le 18 ++ bytes ("GRUB 2.06") ++ [0] ++ [0, 0, 0, 0, 0, 0]) ++
        (u32le 4 ++ u32le 16 ++ u32le 639 ++ u32le 130048) ++
          (u32le 0 ++ u32le 8)

/-- `block_demo` with the meminfo payload replaced by `(0, 0)`. -/
def block_demo_zeroed : List Nat :=
  u32le 80 ++ u32le 0 ++
    (u32le 1 ++ u32le 23 ++ bytes ("root=/dev/sda1") ++ [0] ++ [0]) ++
      (u32le 2 ++ u32le 18 ++ bytes ("GRUB 2.06") ++ [0] ++ [0, 0, 0, 0, 0, 0]) ++
        (u32le 4 ++ u32le 16 ++ u32le 0 ++ u32le 0) ++
          (u32le 0 ++ u32le 8)

/-- Block whose command-line tag declares `size = 9` (one payload byte, `'A'`
= 65, no null terminator inside the declared extent `[8, 17)`); the bytes
after the tag are `'B'` = 66 and then a null, followed by the end tag at
offset 24. -/
def block_overread : List Nat :=
  u32le 32 ++ u32le 0 ++
    (u32le 1 ++ u32le 9 ++ [65] ++ [66, 0, 0, 0, 0, 0, 0]) ++
      (u32le 0 ++ u32le 8)

/-- Block whose first tag has `type = 1` and `size = 7` (below the 8-byte
minimum), followed by the end tag at offset 16. -/
def block_size7 : List Nat :=
  u32le 24 ++ u32le 0 ++ (u32le 1 ++ u32le 7) ++ (u32le 0 ++ u32le 8)

/-- Block declaring `total_size = 16` that contains a single unknown tag
(`type = 6`, `size = 8`) and no end tag within its declared extent. -/
def block_no_end : List Nat :=
  u32le 16 ++ u32le 0 ++ (u32le 6 ++ u32le 8)

/-- Bytes that happen to sit in memory after `block_no_end`: a stray end
tag. -/
def stray_end_tag : List Nat := u32le 0 ++ u32le 8

/-- Minimal block: header then an immediate end tag (`total_size = 16`). -/
def block_end_only : List Nat := u32le 16 ++ u32le 0 ++ (u32le 0 ++ u32le 8)

/-! ### Pointwise characterizations of the buffer loops -/

/-- After `n` steps of the scroll copy loop, cells `0..n-1` hold the prior
content of the cell one row below and all other cells are untouched. -/
theorem scroll_copy_eq (f : Nat → Nat) (n : Nat) : ∀ i,
    scroll_copy f n i = if i < n then f (i + VGA_WIDTH) else f i := by
  induction n with
  | zero =>
    intro i
    simp [scroll_copy]
  | succ n ih =>
    intro i
    have hns : ¬ (n + VGA_WIDTH < n) := by omega
    have hsrc : scroll_copy f n (n + VGA_WIDTH) = f (n + VGA_WIDTH) := by
      rw [ih, if_neg hns]
    rw [scroll_copy, Function.update_apply, hsrc, ih i]
    by_cases h : i = n
    · subst h
      rw [if_pos rfl, if_pos (Nat.lt_succ_self i)]
    · rw [if_neg h]
      by_cases h2 : i < n
      · rw [if_pos h2, if_pos (by omega : i < n + 1)]
      · rw [if_neg h2, if_neg (by omega : ¬ i < n + 1)]

/-- After `n` steps of the scroll clearing loop, the first `n` cells of the
last row hold a space in the given color and all other cells are
untouched. -/
theorem scroll_clear_eq (color : Nat) (f : Nat → Nat) (n : Nat) : ∀ i,
    scroll_clear color f n i =
      if (VGA_HEIGHT - 1) * VGA_WIDTH ≤ i ∧ i < (VGA_HEIGHT - 1) * VGA_WIDTH + n
      then vga_entry 32 color else f i := by
  have hB : (VGA_HEIGHT - 1) * VGA_WIDTH = 1920 := by norm_num [VGA_HEIGHT, VGA_WIDTH]
  rw [hB]
  induction n with
  | zero =>
    intro i
    rw [scroll_clear, if_neg (by omega : ¬ (1920 ≤ i ∧ i < 1920 + 0))]
  | succ n ih =>
    intro i
    rw [scroll_clear, Function.update_apply, hB, ih i]
    by_cases h : i = 1920 + n
    · subst h
      rw [if_pos rfl, if_pos (by omega : 1920 ≤ 1920 + n ∧ 1920 + n < 1920 + (n + 1))]
    · rw [if_neg h]
      by_cases h2 : 1920 ≤ i ∧ i < 1920 + n
      · rw [if_pos h2, if_pos (by omega : 1920 ≤ i ∧ i < 1920 + (n + 1))]
      · rw [if_neg h2, if_neg (by omega : ¬ (1920 ≤ i ∧ i < 1920 + (n + 1)))]

/-- Cell-level behavior of `terminal_scroll`: indices below
`(VGA_HEIGHT-1)*VGA_WIDTH = 1920` take the prior value one row below, the
last row (`1920 ≤ i < 2000`) becomes spaces in the current color, and
anything beyond the grid is untouched. -/
theorem terminal_scroll_buf (s : TermState) (i : Nat) :
    (terminal_scroll s).buf i =
      if i < 1920 then s.buf (i + 80)
      else if i < 2000 then vga_entry 32 s.color
      else s.buf i := by
  show scroll_clear s.color (scroll_copy s.buf ((VGA_HEIGHT - 1) * VGA_WIDTH)) VGA_WIDTH i = _
  rw [scroll_clear_eq, scroll_copy_eq]
  have hB : (VGA_HEIGHT - 1) * VGA_WIDTH = 1920 := by norm_num [VGA_HEIGHT, VGA_WIDTH]
  have hW : VGA_WIDTH = 80 := rfl
  rw [hB, hW]
  split_ifs with h1 h2 h3 <;> first | rfl | omega

/-! ### Frame and invariant lemmas for the terminal operations -/

theorem terminal_scroll_color (s : TermState) : (terminal_scroll s).color = s.color := rfl

theorem row_advance_color (s : TermState) : (row_advance s).color = s.color := by
  simp only [row_advance]
  split <;> rfl

theorem row_advance_col (s : TermState) : (row_advance s).col = s.col := by
  simp only [row_advance]
  split <;> rfl

theorem row_advance_row_lt (s : TermState) (hr : s.row < VGA_HEIGHT) :
    (row_advance s).row < VGA_HEIGHT := by
  simp only [row_advance]
  split
  · show VGA_HEIGHT - 1 < VGA_HEIGHT
    decide
  · rename_i h
    have h' : ¬ s.row + 1 = VGA_HEIGHT := h
    show s.row + 1 < VGA_HEIGHT
    omega

theorem row_advance_row_no_scroll (s : TermState) (hr : s.row + 1 < VGA_HEIGHT) :
    (row_advance s).row = s.row + 1 := by
  simp only [row_advance]
  rw [if_neg (by show ¬ s.row + 1 = VGA_HEIGHT; omega)]

theorem terminal_putchar_color (c : Nat) (s : TermState) :
    (terminal_putchar c s).color = s.color := by
  simp only [terminal_putchar]
  split
  · rw [row_advance_color]
  · split
    · split
      · rw [row_advance_color]
      · rfl
    · split
      · rw [row_advance_color]
        try rfl
      · rfl

theorem terminal_putchar_bounds (c : Nat) (s : TermState) (hr : s.row < VGA_HEIGHT)
    (hc : s.col < VGA_WIDTH) :
    (terminal_putchar c s).row < VGA_HEIGHT ∧ (terminal_putchar c s).col < VGA_WIDTH := by
  simp only [terminal_putchar]
  split
  · constructor
    · exact row_advance_row_lt _ hr
    · rw [row_advance_col]
      show (0 : Nat) < VGA_WIDTH
      decide
  · split
    · split
      · constructor
        · exact row_advance_row_lt _ hr
        · rw [row_advance_col]
          show (0 : Nat) < VGA_WIDTH
          decide
      · rename_i hw
        have hw' : ¬ VGA_WIDTH ≤ (s.col + 4) &&& NOT3 := hw
        constructor
        · exact hr
        · show (s.col + 4) &&& NOT3 < VGA_WIDTH
          omega
    · split
      · constructor
        · exact row_advance_row_lt _ (by exact hr)
        · rw [row_advance_col]
          show (0 : Nat) < VGA_WIDTH
          decide
      · rename_i hw
        have hw' : ¬ s.col + 1 = VGA_WIDTH := hw
        constructor
        · exact hr
        · show s.col + 1 < VGA_WIDTH
          omega

theorem terminal_write_bounds (l : List Nat) : ∀ s : TermState, s.row < VGA_HEIGHT →
    s.col < VGA_WIDTH →
    (terminal_write l s).row < VGA_HEIGHT ∧ (terminal_write l s).col < VGA_WIDTH := by
  induction l with
  | nil => exact fun s hr hc => ⟨hr, hc⟩
  | cons b t ih =>
    intro s hr hc
    have h := terminal_putchar_bounds b s hr hc
    exact ih (terminal_putchar b s) h.1 h.2

theorem terminal_write_color (l : List Nat) : ∀ s : TermState,
    (terminal_write l s).color = s.color := by
  induction l with
  | nil => exact fun s => rfl
  | cons b t ih =>
    intro s
    exact (ih (terminal_putchar b s)).trans (terminal_putchar_color b s)

theorem terminal_writestring_bounds (d : List Nat) (s : TermState) (hr : s.row < VGA_HEIGHT)
    (hc : s.col < VGA_WIDTH) :
    (terminal_writestring d s).row < VGA_HEIGHT ∧
      (terminal_writestring d s).col < VGA_WIDTH :=
  terminal_write_bounds (d.take (cstring_len d)) s hr hc

theorem terminal_writestring_color (d : List Nat) (s : TermState) :
    (terminal_writestring d s).color = s.color :=
  terminal_write_color (d.take (cstring_len d)) s

theorem writes_fold_color (ws : List (List Nat)) : ∀ s : TermState,
    (ws.foldl (fun st w => terminal_writestring w st) s).color = s.color := by
  induction ws with
  | nil => exact fun s => rfl
  | cons w t ih =>
    intro s
    exact (ih (terminal_writestring w s)).trans (terminal_writestring_color w s)


/-! ### Claim theorems -/

/-- C1: the claim says a string-bearing tag (type 1 or 2) is decoded reading
at most `size - 8` payload bytes, truncating at the size boundary. The code
does no such bounding: on `block_overread`, whose command-line tag declares
`size = 9` (one payload byte, no null terminator within the declared
extent), the null-terminator scan runs on past the tag and decodes the
two-byte string `[65, 66]` — one byte more than the declared payload
capacity `size - 8 = 1`, read from beyond the tag's extent. -/
theorem mb_string_overread :
    parse_records block_overread = ([MBRecord.cmdline [65, 66]], MBOutcome.done)
    ∧ read_u32 block_overread 12 - 8 < [65, 66].length :=
  ⟨rfl, by decide⟩

/-- C2: the claim says a tag with `size = 7 < 8` is rejected as malformed,
its payload unread and the cursor not advanced past it. The code has no
size check: on `block_size7`, whose first tag has `type = 1`, `size = 7`,
it reads a payload string at offset 16 (outside the 7-byte tag), advances
by `round_up(7, 8) = 8`, and completes the walk normally, emitting a
command-line record. -/
theorem mb_size7_not_rejected :
    read_u32 block_size7 12 = 7
    ∧ parse_records block_size7 = ([MBRecord.cmdline []], MBOutcome.done) :=
  ⟨by decide, rfl⟩

/-- C3: the claim says a block with no `type == 0` tag within its declared
total size makes parsing terminate with a malformed-block signal. The code
never reads the header's `total_size`: on `block_no_end` (declared total
size 16, one unknown tag, no end tag) the walk runs off the end of the
block (`oob`, an out-of-bounds read in the real code), and if the adjacent
memory happens to hold a stray `type = 0` word the walk consumes it and
reports normal completion — in neither case a malformed-block signal. -/
theorem mb_no_end_tag_walks_past :
    read_u32 block_no_end 0 = 16 ∧ block_no_end.length = 16
    ∧ parse_records block_no_end = ([], MBOutcome.oob)
    ∧ parse_records (block_no_end ++ stray_end_tag) = ([], MBOutcome.done) :=
  ⟨by decide, by decide, rfl, rfl⟩

/-- C4: `kernel_main` invokes the parser if and only if the magic argument
equals `0x36d76289`; for every other 64-bit value it prints the error
message and reaches the halt state without invoking the parser. -/
theorem kernel_main_magic_gate : ∀ (magic : Nat) (mem : List Nat) (s0 : TermState),
    magic < 2 ^ 64 →
    (((kernel_main magic mem s0).parserInvoked = true) ↔ magic = 0x36d76289)
    ∧ (magic ≠ 0x36d76289 →
        (kernel_main magic mem s0).parserInvoked = false ∧
          msg_magic_err ∈ (kernel_main magic mem s0).writes) := by
  intro magic mem s0 _
  by_cases h : magic = 0x36d76289
  · refine ⟨?_, fun hn => absurd h hn⟩
    simp [kernel_main, h]
  · refine ⟨?_, fun _ => ⟨?_, ?_⟩⟩
    · simp [kernel_main, h]
    · simp [kernel_main, h]
    · simp [kernel_main, h]

/-- C4 witness: at magic 0 the parser is not invoked and the error message
is among the writes. -/
theorem kernel_main_magic_gate_witness :
    (kernel_main 0 [] st0).parserInvoked = false
    ∧ msg_magic_err ∈ (kernel_main 0 [] st0).writes :=
  (kernel_main_magic_gate 0 [] st0 (by norm_num)).2 (by norm_num)

/-- C5: the cursor bounds `row < VGA_HEIGHT` and `col < VGA_WIDTH` hold
after `terminal_initialize` and are preserved by `terminal_putchar` (any
byte), `terminal_write`, `terminal_writestring`, `terminal_setcolor` and
`terminal_scroll`, from any state satisfying them. -/
theorem terminal_cursor_bounds :
    (∀ s : TermState,
        ( terminal_initialize s).row < VGA_HEIGHT ∧ ( terminal_initialize s).col < VGA_WIDTH)
    ∧ (∀ (s : TermState) (c : Nat), s.row < VGA_HEIGHT → s.col < VGA_WIDTH →
        (terminal_putchar c s).row < VGA_HEIGHT ∧ (terminal_putchar c s).col < VGA_WIDTH)
    ∧ (∀ (s : TermState) (l : List Nat), s.row < VGA_HEIGHT → s.col < VGA_WIDTH →
        (terminal_write l s).row < VGA_HEIGHT ∧ (terminal_write l s).col < VGA_WIDTH)
    ∧ (∀ (s : TermState) (d : List Nat), s.row < VGA_HEIGHT → s.col < VGA_WIDTH →
        (terminal_writestring d s).row < VGA_HEIGHT ∧
          (terminal_writestring d s).col < VGA_WIDTH)
    ∧ (∀ (s : TermState) (c : Nat), s.row < VGA_HEIGHT → s.col < VGA_WIDTH →
        (terminal_setcolor c s).row < VGA_HEIGHT ∧ (terminal_setcolor c s).col < VGA_WIDTH)
    ∧ (∀ s : TermState, s.row < VGA_HEIGHT → s.col < VGA_WIDTH →
        (terminal_scroll s).row < VGA_HEIGHT ∧ (terminal_scroll s).col < VGA_WIDTH) :=
  ⟨fun _ => ⟨by show (0 : Nat) < VGA_HEIGHT; decide, by show (0 : Nat) < VGA_WIDTH; decide⟩,
    fun s c hr hc => terminal_putchar_bounds c s hr hc,
    fun s l hr hc => terminal_write_bounds l s hr hc,
    fun s d hr hc => terminal_writestring_bounds d s hr hc,
    fun _ _ hr hc => ⟨hr, hc⟩,
    fun _ hr hc => ⟨hr, hc⟩⟩

/-- C5 witness: the bounds hold after printing a byte from the origin
state. -/
theorem terminal_cursor_bounds_witness :
    (terminal_putchar 65 st0).row < VGA_HEIGHT
    ∧ (terminal_putchar 65 st0).col < VGA_WIDTH :=
  terminal_cursor_bounds.2.1 st0 65 (by decide) (by decide)

/-- C6: `terminal_scroll` copies, for every row `y < VGA_HEIGHT - 1` and
column `x < VGA_WIDTH`, the cell at `(x, y+1)` into `(x, y)`, fills the
final row with a space in the current color, and a row advance taken from
the last row leaves the cursor row at `VGA_HEIGHT - 1`. -/
theorem terminal_scroll_moves_rows (s : TermState) :
    (∀ y x, y < VGA_HEIGHT - 1 → x < VGA_WIDTH →
        (terminal_scroll s).buf (y * VGA_WIDTH + x) = s.buf ((y + 1) * VGA_WIDTH + x))
    ∧ (∀ x, x < VGA_WIDTH →
        (terminal_scroll s).buf ((VGA_HEIGHT - 1) * VGA_WIDTH + x) = vga_entry 32 s.color)
    ∧ (s.row = VGA_HEIGHT - 1 → (row_advance s).row = VGA_HEIGHT - 1) := by
  refine ⟨?_, ?_, ?_⟩
  · intro y x hy hx
    simp only [VGA_HEIGHT, VGA_WIDTH] at hy hx ⊢
    rw [terminal_scroll_buf, if_pos (by omega : y * 80 + x < 1920)]
    congr 1
    omega
  · intro x hx
    simp only [VGA_HEIGHT, VGA_WIDTH] at hx ⊢
    rw [terminal_scroll_buf, if_neg (by omega : ¬ (25 - 1) * 80 + x < 1920),
      if_pos (by omega : (25 - 1) * 80 + x < 2000)]
  · intro h
    simp only [row_advance]
    rw [if_pos (by show s.row + 1 = VGA_HEIGHT; rw [h]; decide)]
    rfl

/-- C6 witness: scrolling the origin state moves cell (5, 4) into (5, 3),
and a row advance from row 24 stays at row 24. -/
theorem terminal_scroll_moves_rows_witness :
    (terminal_scroll st0).buf (3 * VGA_WIDTH + 5) = st0.buf ((3 + 1) * VGA_WIDTH + 5)
    ∧ (row_advance { st0 with row := 24 }).row = VGA_HEIGHT - 1 :=
  ⟨(terminal_scroll_moves_rows st0).1 3 5 (by decide) (by decide),
    (terminal_scroll_moves_rows { st0 with row := 24 }).2.2 (by decide)⟩

/-- C7: `terminal_putchar` on a tab sets the column to
`(col + 4) & ~3`; when that value meets or exceeds `VGA_WIDTH` the state
change is exactly that of a newline. From column 5 the cursor moves to
column 8, from column 0 to column 4, and from column 78 to column 0 of the
next row. -/
theorem terminal_tab_behavior (s : TermState) :
    ((s.col + 4) &&& NOT3 < VGA_WIDTH →
        terminal_putchar 9 s = { s with col := (s.col + 4) &&& NOT3 })
    ∧ (VGA_WIDTH ≤ (s.col + 4) &&& NOT3 →
        terminal_putchar 9 s = terminal_putchar 10 s)
    ∧ (s.col = 5 → (terminal_putchar 9 s).col = 8)
    ∧ (s.col = 0 → (terminal_putchar 9 s).col = 4)
    ∧ (s.col = 78 →
        (terminal_putchar 9 s).col = 0 ∧
          (s.row + 1 < VGA_HEIGHT → (terminal_putchar 9 s).row = s.row + 1)) := by
  have hnw : ∀ h : ¬ VGA_WIDTH ≤ (s.col + 4) &&& NOT3,
      terminal_putchar 9 s = { s with col := (s.col + 4) &&& NOT3 } := by
    intro h
    show (if (9 : Nat) = 10 then _ else _) = _
    rw [if_neg (by decide : ¬ (9 : Nat) = 10)]
    show (if (9 : Nat) = 9 then _ else _) = _
    rw [if_pos rfl]
    show (if VGA_WIDTH ≤ (s.col + 4) &&& NOT3 then _ else _) = _
    rw [if_neg h]
  have hw : ∀ h : VGA_WIDTH ≤ (s.col + 4) &&& NOT3,
      terminal_putchar 9 s = terminal_putchar 10 s := by
    intro h
    show (if (9 : Nat) = 10 then _ else _) = _
    rw [if_neg (by decide : ¬ (9 : Nat) = 10)]
    show (if (9 : Nat) = 9 then _ else _) = _
    rw [if_pos rfl]
    show (if VGA_WIDTH ≤ (s.col + 4) &&& NOT3 then _ else _) = _
    rw [if_pos h]
    show row_advance { s with col := 0 } = _
    show _ = (if (10 : Nat) = 10 then _ else _)
    rw [if_pos rfl]
  refine ⟨fun h => hnw (by omega), hw, ?_, ?_, ?_⟩
  · intro h
    rw [hnw (by rw [h]; decide)]
    show (s.col + 4) &&& NOT3 = 8
    rw [h]
    decide
  · intro h
    rw [hnw (by rw [h]; decide)]
    show (s.col + 4) &&& NOT3 = 4
    rw [h]
    decide
  · intro h
    have he := hw (by rw [h]; decide)
    constructor
    · rw [he]
      show (row_advance { s with col := 0 }).col = 0
      rw [row_advance_col]
    · intro hr
      rw [he]
      show (row_advance { s with col := 0 }).row = s.row + 1
      exact row_advance_row_no_scroll _ (by exact hr)

/-- C7 witness: a tab from column 5 lands on column 8 and a tab from column
78 wraps to column 0. -/
theorem terminal_tab_behavior_witness :
    (terminal_putchar 9 { st0 with col := 5 }).col = 8
    ∧ (terminal_putchar 9 { st0 with col := 78 }).col = 0 :=
  ⟨(terminal_tab_behavior { st0 with col := 5 }).2.2.1 rfl,
    ((terminal_tab_behavior { st0 with col := 78 }).2.2.2.2 rfl).1⟩

/-- C8 counterexample: the claim says the memory-info record carries
`mem_lower` and `mem_upper` verbatim, but the code reads neither field
(kernel.c lines 254-260, `(void)mem`): two blocks that differ only in those
payload fields produce identical parser output. -/
theorem mb_meminfo_values_dropped :
    parse_records block_demo = parse_records block_demo_zeroed
    ∧ block_demo ≠ block_demo_zeroed := by
  have h1 : parse_records block_demo =
      ([MBRecord.cmdline (bytes ("root=/dev/sda1")),
        MBRecord.bootloader (bytes ("GRUB 2.06")), MBRecord.memDetected],
        MBOutcome.done) := rfl
  have h2 : parse_records block_demo_zeroed =
      ([MBRecord.cmdline (bytes ("root=/dev/sda1")),
        MBRecord.bootloader (bytes ("GRUB 2.06")), MBRecord.memDetected],
        MBOutcome.done) := rfl
  exact ⟨h1.trans h2.symm, by decide⟩

/-- C8 as amended: on the well-formed demo block the parser yields exactly
three records in order — the command line `root=/dev/sda1`, the bootloader
name `GRUB 2.06`, and the memory-info marker (which carries no field
values) — and the walk terminates at the end tag. -/
theorem mb_demo_block_records :
    parse_records block_demo =
      ([MBRecord.cmdline (bytes ("root=/dev/sda1")),
        MBRecord.bootloader (bytes ("GRUB 2.06")), MBRecord.memDetected],
        MBOutcome.done) := rfl

set_option maxRecDepth 10000 in
/-- C9 counterexample: the claim says `parse_multiboot_info` leaves the
terminal state unchanged and performs no output, but it prints its report:
already on a block holding only the end tag its header line moves the
cursor off the starting row. -/
theorem mb_parser_touches_terminal :
    (parse_multiboot_info block_end_only st0).row ≠ st0.row := by
  have h1 : (parse_multiboot_info block_end_only st0).row = 1 := rfl
  rw [h1]
  decide

/-- C9 as amended: `parse_multiboot_info` does write to the terminal, and
that is its only effect — it only reads the input block, and aside from
cursor movement and cell painting caused by its `terminal_writestring`
calls it changes nothing; in particular the terminal color is unchanged
for every block and state. -/
theorem mb_parser_preserves_color : ∀ (mem : List Nat) (s : TermState),
    (parse_multiboot_info mem s).color = s.color :=
  fun mem s => writes_fold_color (parse_multiboot_writes mem) s

/-- C10: when `row + 1 < VGA_HEIGHT`, a newline leaves every framebuffer
cell unchanged, and a tab whose target column `(col + 4) & ~3` stays below
`VGA_WIDTH` does too: these control characters move only the cursor. -/
theorem control_chars_paint_nothing (s : TermState) :
    (s.row + 1 < VGA_HEIGHT → ∀ i, (terminal_putchar 10 s).buf i = s.buf i)
    ∧ ((s.col + 4) &&& NOT3 < VGA_WIDTH → ∀ i, (terminal_putchar 9 s).buf i = s.buf i) := by
  constructor
  · intro h i
    show (row_advance { s with col := 0 }).buf i = s.buf i
    simp only [row_advance]
    rw [if_neg (by show ¬ s.row + 1 = VGA_HEIGHT; omega)]
  · intro h i
    simp only [terminal_putchar]
    rw [if_pos (trivial : True)]
    rw [if_neg (by omega : ¬ VGA_WIDTH ≤ (s.col + 4) &&& NOT3)]
    rw [if_neg (by decide : ¬ (9 : Nat) = 10)]

/-- C10 witness: from the origin state neither a newline nor a tab paints
cell 0. -/
theorem control_chars_paint_nothing_witness :
    (terminal_putchar 10 st0).buf 0 = st0.buf 0
    ∧ (terminal_putchar 9 st0).buf 0 = st0.buf 0 :=
  ⟨(control_chars_paint_nothing st0).1 (by decide) 0,
    (control_chars_paint_nothing st0).2 (by decide) 0⟩
